import Mathlib

/-!
Shallow embedding of the `thermal_printer` ESPHome component
(`ThermalPrinterComponent`, queue-system revision in `src/unnamed/part_004`
with header `src/unnamed/part_002`, plus the reject-new queue revision in
`src/unnamed/part_003`).

Modelling conventions:
* machine integers are `Nat` with explicit `% 2^w` at every point where the
  C++ code performs a narrowing conversion or where an unsigned counter is
  updated (`uint8` = `% U8`, `uint16` = `% U16`, `uint32` = `% U32`);
* C++ `float` configuration values and the derived paper-usage quantities are
  modelled as `ℚ` (all concrete values involved are exactly representable);
* the serial transport is a pair of byte lists: `out` (bytes sent) and
  `rx` (receive buffer; `available()` = `rx ≠ []`, `read()` pops the head);
* model time `now` is an idealised unbounded microsecond clock:
  `micros() = now`, `millis() = now / 1000`, `delay(ms)` adds `ms * 1000`,
  `delay(1)` inside a polling loop advances `millis()` by exactly 1;
* the DTR handshake input pin is modelled as a level `dtr_pin_high` that is
  constant in time, which is enough for the claims about the ready/timeout
  behaviour; busy-wait loops whose exit condition is constant under this
  model are summarised by their closed form, except the
  `wait_for_printer_ready` polling loop, which is also given a faithful
  fuel-indexed unfolding (`wfprLoop`) in order to reason about termination.
-/

namespace ThermalPrinter

/-- `2^8`, the modulus of `uint8_t` arithmetic. -/
abbrev U8 : Nat := 256
/-- `2^16`, the modulus of `uint16_t` arithmetic. -/
abbrev U16 : Nat := 65536
/-- `2^32`, the modulus of `uint32_t` arithmetic. -/
abbrev U32 : Nat := 4294967296

/-- `enum class PrintResult` (part_002, lines 48-57). -/
inductive PrintResult where
  | SUCCESS
  | PAPER_OUT
  | COVER_OPEN
  | COMMUNICATION_ERROR
  | INSUFFICIENT_PAPER
  | PRINTER_OFFLINE
  | DTR_TIMEOUT
  | QUEUE_FULL
deriving DecidableEq, Repr

/-- `struct PrintJob` of the queue-system revision (part_002, lines 71-95).
The `JobType` enumerators are kept as their integer values. -/
structure PrintJob where
  jtype : Nat := 0
  data1 : String := ""
  data2 : String := ""
  data3 : String := ""
  param1 : Nat := 0
  param2 : Nat := 0
  param3 : Bool := false
  timestamp : Nat := 0
  priority : Nat := 0
deriving DecidableEq, Repr

/-- The mutable state of `ThermalPrinterComponent` (fields and their
initialisers from part_002), together with the transport and the model
clock.  Counter fields are `uint32_t` values, kept `< U32` by taking
`% U32` at every update. -/
structure PState where
  out : List Nat := []
  rx : List Nat := []
  now : Nat := 0
  chars : Nat := 0
  lines : Nat := 0
  feeds : Nat := 0
  total_bytes_sent : Nat := 0
  resume : Nat := 0
  timeout_waits : Nat := 0
  dtr_waits : Nat := 0
  dtr_timeout_count : Nat := 0
  byte_time : Nat := 416
  dot_print_time : Nat := 33
  dot_feed_time : Nat := 333
  dtr_enabled : Bool := false
  dtr_pin_high : Bool := true
  printer_busy : Bool := false
  last_print_time : Nat := 0
  queue : List PrintJob := []
  max_queue_size : Nat := 10
  jobs_dropped : Nat := 0
  paper_roll_length : ℚ := 30000
  line_height_mm : ℚ := 4
deriving DecidableEq

/-- `millis()`: model milliseconds. -/
def millis (s : PState) : Nat := s.now / 1000

/-- `micros()`: model microseconds. -/
def micros (s : PState) : Nat := s.now

/-- `delay(ms)`: advance the model clock. -/
def delay_ms (s : PState) (ms : Nat) : PState := { s with now := s.now + ms * 1000 }

/-- `dtr_ready()` (part_004, lines 378-383): true immediately when DTR
handshaking is disabled, else the active-low pin reading. -/
def dtr_ready (s : PState) : Bool :=
  if ¬ s.dtr_enabled then true else ¬ s.dtr_pin_high

/-- `timeout_wait()` (part_004, lines 352-372).  Both busy-wait loops are
summarised by their closed form, valid because the pin level and the
resume timestamp are constant while the loop spins: in DTR mode a ready
pin exits at once, a never-ready pin spins until the 5000 ms timeout
(observing the expiry on the next millisecond) and bumps the timeout
counter; in software mode the wait ends exactly when `micros()` reaches
`resume_time_micros_`. -/
def timeout_wait (s : PState) : PState :=
  if s.dtr_enabled then
    if dtr_ready s then
      { s with dtr_waits := (s.dtr_waits + 1) % U32 }
    else
      { s with now := s.now + 5001 * 1000,
               dtr_timeout_count := (s.dtr_timeout_count + 1) % U32,
               dtr_waits := (s.dtr_waits + 1) % U32 }
  else
    { s with now := max s.now s.resume,
             timeout_waits := (s.timeout_waits + 1) % U32 }

/-- `timeout_set(delay_microseconds)` (part_004, lines 374-376). -/
def timeout_set (s : PState) (delay_microseconds : Nat) : PState :=
  { s with resume := micros s + delay_microseconds }

/-- `uart::UARTDevice::write_byte`: push one byte on the transport. -/
def write_byte (s : PState) (b : Nat) : PState :=
  { s with out := s.out ++ [b % U8] }

/-- `write_byte_with_flow_control(byte)` (part_004, lines 401-411). -/
def write_byte_with_flow_control (s : PState) (b : Nat) : PState :=
  let s1 := timeout_wait s
  let s2 := write_byte s1 b
  let s3 := { s2 with total_bytes_sent := (s2.total_bytes_sent + 1) % U32 }
  if s3.dtr_enabled then timeout_set s3 (s3.byte_time / 4)
  else timeout_set s3 (s3.byte_time * 2)

/-- `save_usage_to_flash()` (part_004, lines 1202-1215): persistence does
not change the in-RAM counters, so on this state it is the identity. -/
def save_usage_to_flash (s : PState) : PState := s

/-- `size_t write(uint8_t c)` (part_004, lines 415-433). -/
def write1 (s : PState) (c : Nat) : PState :=
  let s1 := write_byte_with_flow_control s c
  let s2 := { s1 with chars := (s1.chars + 1) % U32 }
  let s3 : PState :=
    if c % U8 = 10 then
      let s2b := { s2 with lines := (s2.lines + 1) % U32 }
      if s2b.dtr_enabled then timeout_set s2b (s2b.dot_feed_time * 8)
      else timeout_set s2b (s2b.dot_feed_time * 16)
    else s2
  if s3.chars % 100 = 0 then save_usage_to_flash s3 else s3

/-- `size_t write(const uint8_t *buffer, size_t size)` (part_004, lines
435-439), which is also `Print::print(str)` (part_001, lines 754-756):
single-byte writes over the whole buffer. -/
def printBytes (s : PState) (t : List Nat) : PState :=
  t.foldl write1 s

/-- `track_print_operation(uint16_t chars, uint8_t lines, uint8_t feeds)`
(part_004, lines 1196-1200).  Arguments are narrowed to their parameter
types at the call boundary. -/
def track_print_operation (s : PState) (chars lines feeds : Nat) : PState :=
  { s with chars := (s.chars + chars % U16) % U32,
           lines := (s.lines + lines % U8) % U32,
           feeds := (s.feeds + feeds % U8) % U32 }

/-- `print_text(text)` (part_004, lines 685-697).  The `uint8_t newlines`
local counts the linefeeds mod 256. -/
def print_text (s : PState) (t : List Nat) : PState :=
  if t = [] then s
  else
    let s1 := printBytes s t
    track_print_operation s1 t.length (t.countP (· % U8 = 10) % U8) 0

/-- `get_paper_usage_mm()` (part_004, lines 880-882): the `uint32_t` sum
`lines_printed_ + feeds_executed_` times the `float` calibration. -/
def get_paper_usage_mm (s : PState) : ℚ :=
  (((s.lines + s.feeds) % U32 : Nat) : ℚ) * s.line_height_mm

/-- `reset_paper_usage()` (part_004, lines 888-893). -/
def reset_paper_usage (s : PState) : PState :=
  { s with lines := 0, chars := 0, feeds := 0 }

/-- `can_print_job(uint16_t estimated_lines)` (part_004, lines 940-950). -/
def can_print_job (s : PState) (estimated_lines : Nat) : Bool :=
  let required : ℚ := (estimated_lines : ℚ) * s.line_height_mm
  let remaining : ℚ := s.paper_roll_length - get_paper_usage_mm s
  decide (required ≤ remaining)

/-- `initialize_dtr_timings()` (part_004, lines 345-350); `parentBaud` is
`parent_->get_baud_rate()` when a UART parent is configured. -/
def initialize_dtr_timings (s : PState) (parentBaud : Option Nat) : PState :=
  let baud_rate := parentBaud.getD 19200
  { s with byte_time := (10 * 1000000) / baud_rate,
           dot_print_time := 33,
           dot_feed_time := 333 }

/-- `wait_for_printer_ready(timeout_ms)` (part_004, lines 385-399),
summarised under the constant-pin time model: without DTR it only delays;
with DTR a ready pin exits at once, a never-ready pin spins `delay(1)`
until the elapsed time first exceeds the timeout and increments
`dtr_timeout_count_` once.  `wfprLoop` below is the faithful loop. -/
def wait_for_printer_ready (s : PState) (timeout_ms : Nat) : PState :=
  if ¬ s.dtr_enabled then delay_ms s (timeout_ms / 10)
  else if dtr_ready s then s
  else { s with now := s.now + (timeout_ms + 1) * 1000,
                dtr_timeout_count := (s.dtr_timeout_count + 1) % U32 }

/-- The `while (!dtr_ready())` polling loop of `wait_for_printer_ready`
(part_004, lines 391-398), fuel-indexed: each iteration checks the pin,
then the elapsed-time bound (`millis() - start > timeout_ms`, breaking
with a timeout-counter increment), then performs `delay(1)`.  `none`
means the fuel ran out before the loop exited. -/
def wfprLoop (timeout_ms start : Nat) : Nat → PState → Option PState
  | 0, _ => none
  | fuel + 1, s =>
    if dtr_ready s then some s
    else if millis s - start > timeout_ms then
      some { s with dtr_timeout_count := (s.dtr_timeout_count + 1) % U32 }
    else wfprLoop timeout_ms start fuel (delay_ms s 1)

/-- `set_size(value)` (part_004, lines 562-573). -/
def set_size (s : PState) (value : Char) : PState :=
  let size : Nat := if value = 'L' then 0x30 else if value = 'M' then 0x10 else 0x00
  let s1 := write_byte_with_flow_control s 27
  let s2 := write_byte_with_flow_control s1 33
  write_byte_with_flow_control s2 size

/-- `set_text_size(size)` (part_004, lines 575-581). -/
def set_text_size (s : PState) (size : Nat) : PState :=
  let size_char : Char :=
    if size = 1 then 'S' else if size = 2 then 'M' else if 3 ≤ size then 'L' else 'S'
  set_size s size_char

/-- `justify(value)` (part_004, lines 609-619). -/
def justify (s : PState) (value : Char) : PState :=
  let pos : Nat := if value = 'L' then 0 else if value = 'C' then 1
                   else if value = 'R' then 2 else 0
  let s1 := write_byte_with_flow_control s 27
  let s2 := write_byte_with_flow_control s1 97
  write_byte_with_flow_control s2 pos

/-- `bold_on(state)` (part_004, lines 504-508). -/
def bold_on (s : PState) (state : Bool) : PState :=
  let s1 := write_byte_with_flow_control s 27
  let s2 := write_byte_with_flow_control s1 69
  write_byte_with_flow_control s2 (if state then 1 else 0)

/-- `bold_off()` (part_004, lines 510-512). -/
def bold_off (s : PState) : PState := bold_on s false

/-- `set_rotation(rotation)` (part_004, lines 699-709): `ESC 'V'`
followed by `rotation & 0x03`, then a readiness wait. -/
def set_rotation (s : PState) (rotation : Nat) : PState :=
  let s1 := write_byte_with_flow_control s 27
  let s2 := write_byte_with_flow_control s1 86
  let s3 := write_byte_with_flow_control s2 (rotation % 4)
  if s3.dtr_enabled then wait_for_printer_ready s3 500 else delay_ms s3 50

/-- `feed(uint8_t x)` (part_004, lines 621-633). -/
def feed (s : PState) (x : Nat) : PState :=
  let s1 := write_byte_with_flow_control s 27
  let s2 := write_byte_with_flow_control s1 100
  let s3 := write_byte_with_flow_control s2 x
  let s4 := if s3.dtr_enabled then wait_for_printer_ready s3 (x * 100 + 1000)
            else delay_ms s3 (x * 50 + 200)
  track_print_operation s4 0 0 x

/-- `print_padded_line(left, right, total_width, pad_char)` (part_004,
lines 1232-1246; identically `thermal_printer.cpp`, lines 530-551).
`left_len`, `right_len` and `padding` are `uint8_t` locals, so the
padding count is the two's-complement byte value of
`total_width - left_len - right_len`, floored at 1. -/
def padCount (total_width left_len right_len : Nat) : Nat :=
  let padding0 :=
    (((total_width : Int) - ((left_len % U8 : Nat) : Int) -
      ((right_len % U8 : Nat) : Int)).emod U8).toNat
  if padding0 < 1 then 1 else padding0

/-- `print_padded_line` body: print the left text, the pad characters,
the right text and a newline, then account one line of
`total_width + 1` characters. -/
def print_padded_line (s : PState) (left right : List Nat)
    (total_width pad_char : Nat) : PState :=
  let padding := padCount total_width left.length right.length
  let s1 := printBytes s left
  let s2 := (List.replicate padding pad_char).foldl write1 s1
  let s3 := printBytes s2 right
  let s4 := printBytes s3 [10]
  track_print_operation s4 (total_width + 1) 1 0

/-- `print_two_column(left_text, right_text, fill_dots, text_size)`
(part_004, lines 833-843). -/
def print_two_column (s : PState) (left right : List Nat)
    (fill_dots : Bool) (text_size : Char) : PState :=
  let s1 := set_size s text_size
  let line_width : Nat := if text_size = 'M' then 24 else if text_size = 'L' then 16 else 32
  let pad_char : Nat := if fill_dots then 46 else 32
  let s2 := print_padded_line s1 left right line_width pad_char
  set_size s2 'S'

/-- The character loop of `print_rotated_text` (part_004, lines 722-737):
a space prints the UTF-8 middle dot `[194, 183]` and feeds 1, a linefeed
is skipped, anything else prints the single character, feeds 2 and waits. -/
def rotatedBody (s : PState) : List Nat → PState
  | [] => s
  | c :: rest =>
    if c % U8 = 32 then rotatedBody (feed (print_text s [194, 183]) 1) rest
    else if c % U8 ≠ 10 then
      let s1 := feed (print_text s [c]) 2
      let s2 := if s1.dtr_enabled then wait_for_printer_ready s1 2000 else delay_ms s1 100
      rotatedBody s2 rest
    else rotatedBody s rest

/-- `print_rotated_text(text, rotation)` (part_004, lines 711-743). -/
def print_rotated_text (s : PState) (t : List Nat) (rotation : Nat) : PState :=
  if t = [] then s
  else
    let s1 := set_text_size s 1
    let s2 := justify s1 'C'
    let s3 := set_rotation s2 1
    let s4 := rotatedBody s3 (t.take 20)
    let s5 := set_rotation s4 0
    let s6 := justify s5 'L'
    let s7 := set_text_size s6 2
    feed s7 3

/-- `has_paper()` (part_004, lines 860-876): issue `ESC 'v' 0`, wait,
then if a byte is available read it and report paper-out when bits 2-3
are set, else default to paper present. -/
def has_paper (s : PState) : Bool × PState :=
  let s1 := write_byte_with_flow_control s 27
  let s2 := write_byte_with_flow_control s1 118
  let s3 := write_byte_with_flow_control s2 0
  let s4 := if s3.dtr_enabled then wait_for_printer_ready s3 1000 else delay_ms s3 100
  match s4.rx with
  | [] => (true, s4)
  | b :: rest => (decide ((b % U8) &&& 12 = 0), { s4 with rx := rest })

/-- `print_immediate(text, size, align, bold)` (part_004, lines 312-341). -/
def print_immediate (s : PState) (t : List Nat) (size align : Nat) (bold : Bool) :
    PrintResult × PState :=
  if s.printer_busy then (PrintResult.PRINTER_OFFLINE, s)
  else
    let pr := has_paper s
    if ¬ pr.1 then (PrintResult.PAPER_OUT, pr.2)
    else
      let s2 := { pr.2 with printer_busy := true }
      let s3 := set_text_size s2 size
      let s4 := justify s3 (if align = 0 then 'L' else if align = 1 then 'C' else 'R')
      let s5 := bold_on s4 bold
      let s6 := print_text s5 t
      let s7 := bold_off s6
      let s8 := justify s7 'L'
      let s9 := { s8 with printer_busy := false, last_print_time := millis s8 }
      (PrintResult.SUCCESS, s9)

/-- `queue_print_job(job)` (part_004, lines 95-114), the evict-oldest
variant: at capacity it pops the oldest job and counts it dropped, then
always timestamps and appends the new job, returning `SUCCESS`. -/
def queue_print_job (s : PState) (job : PrintJob) : PrintResult × PState :=
  let s1 := if s.max_queue_size ≤ s.queue.length then
              { s with queue := s.queue.tail,
                       jobs_dropped := (s.jobs_dropped + 1) % U32 }
            else s
  let queued_job := { job with timestamp := millis s1 }
  (PrintResult.SUCCESS, { s1 with queue := s1.queue ++ [queued_job] })

/-! ### The reject-new queue revision (`src/unnamed/part_003`)

`part_003` is an earlier revision of the same component whose header is
not among the sources; only the fields its queue code touches are
modelled here. -/

/-- The job record of the part_003 revision (`job.type`, `job.data`,
`job.data2`, `job.data3`, two numeric params, three flags, timestamp), as
used by its `queue_*_job` producers.  The `JobType` enumerators are kept
as integers (`TEXT = 0`, `TWO_COLUMN`, `BARCODE`, `QR_CODE`, `FEED`,
`SEPARATOR`, `TABLE_ROW`, `COMMAND`). -/
structure PrintJob3 where
  jtype : Nat := 0
  data : String := ""
  data2 : String := ""
  data3 : String := ""
  param1 : Nat := 0
  param2 : Nat := 0
  flag1 : Bool := false
  flag2 : Bool := false
  flag3 : Bool := false
  timestamp : Nat := 0
deriving DecidableEq, Repr

/-- The part_003 component state restricted to the fields its enqueue
path reads or writes. -/
structure Q3State where
  queue : List PrintJob3 := []
  max_queue_size : Nat := 10
  jobs_dropped : Nat := 0
  now : Nat := 0
deriving DecidableEq

/-- Modelled from the spec: `is_queue_full()` is declared in the part_003
revision's header, which is not among the sources; per the spec,
`enqueue(job)` tests "queue size ≥ capacity". -/
def is_queue_full (s : Q3State) : Bool :=
  decide (s.max_queue_size ≤ s.queue.length)

/-- `add_job_to_queue(job)` (part_003, lines 809-818), the reject-new
variant: a full queue counts the job dropped and returns `false` leaving
the queue unchanged, otherwise the job is appended and `true` returned. -/
def add_job_to_queue (s : Q3State) (job : PrintJob3) : Bool × Q3State :=
  if is_queue_full s then
    (false, { s with jobs_dropped := (s.jobs_dropped + 1) % U32 })
  else
    (true, { s with queue := s.queue ++ [job] })

/-- `queue_text_job(text, size, alignment, bold, underline, inverse)`
(part_003, lines 586-610): empty text is accepted as a no-op, otherwise
the job is built, and a rejected add is reported as `QUEUE_FULL`. -/
def queue_text_job (s : Q3State) (text : String) (size alignment : Nat)
    (bold underline inverse : Bool) : PrintResult × Q3State :=
  if text.length = 0 then (PrintResult.SUCCESS, s)
  else
    let job : PrintJob3 :=
      { jtype := 0, data := text, param1 := size, param2 := alignment,
        flag1 := bold, flag2 := underline, flag3 := inverse,
        timestamp := s.now / 1000 }
    let r := add_job_to_queue s job
    if r.1 then (PrintResult.SUCCESS, r.2) else (PrintResult.QUEUE_FULL, r.2)

/-! ### Basic facts about the embedded operations -/

@[simp] lemma queue_timeout_wait (s : PState) : (timeout_wait s).queue = s.queue := by
  unfold timeout_wait; split_ifs <;> rfl

@[simp] lemma queue_timeout_set (s : PState) (d : Nat) :
    (timeout_set s d).queue = s.queue := rfl

@[simp] lemma queue_write_byte (s : PState) (b : Nat) :
    (write_byte s b).queue = s.queue := rfl

@[simp] lemma queue_wbwfc (s : PState) (b : Nat) :
    (write_byte_with_flow_control s b).queue = s.queue := by
  simp only [write_byte_with_flow_control]
  split_ifs <;> simp [timeout_set, write_byte]

@[simp] lemma queue_write1 (s : PState) (c : Nat) :
    (write1 s c).queue = s.queue := by
  simp only [write1, save_usage_to_flash]
  split_ifs <;> simp [timeout_set]

@[simp] lemma queue_printBytes (t : List Nat) (s : PState) :
    (printBytes s t).queue = s.queue := by
  induction t generalizing s with
  | nil => rfl
  | cons c rest ih =>
      have h := ih (write1 s c)
      simp only [printBytes, List.foldl_cons] at h ⊢
      simp [h]

@[simp] lemma queue_track (s : PState) (a b c : Nat) :
    (track_print_operation s a b c).queue = s.queue := rfl

@[simp] lemma queue_print_text (s : PState) (t : List Nat) :
    (print_text s t).queue = s.queue := by
  unfold print_text; split_ifs <;> simp

@[simp] lemma queue_set_size (s : PState) (v : Char) :
    (set_size s v).queue = s.queue := by
  simp [set_size]

@[simp] lemma queue_set_text_size (s : PState) (n : Nat) :
    (set_text_size s n).queue = s.queue := by
  simp [set_text_size]

@[simp] lemma queue_justify (s : PState) (v : Char) :
    (justify s v).queue = s.queue := by
  simp [justify]

@[simp] lemma queue_bold_on (s : PState) (b : Bool) :
    (bold_on s b).queue = s.queue := by
  simp [bold_on]

@[simp] lemma queue_bold_off (s : PState) : (bold_off s).queue = s.queue := by
  simp [bold_off]

@[simp] lemma queue_delay_ms (s : PState) (ms : Nat) :
    (delay_ms s ms).queue = s.queue := rfl

@[simp] lemma queue_wait_ready (s : PState) (t : Nat) :
    (wait_for_printer_ready s t).queue = s.queue := by
  unfold wait_for_printer_ready; split_ifs <;> rfl

@[simp] lemma queue_has_paper (s : PState) : (has_paper s).2.queue = s.queue := by
  simp only [has_paper]
  split <;> split_ifs <;> simp_all

@[simp] lemma rx_timeout_wait (s : PState) : (timeout_wait s).rx = s.rx := by
  unfold timeout_wait; split_ifs <;> rfl

@[simp] lemma rx_timeout_set (s : PState) (d : Nat) : (timeout_set s d).rx = s.rx := rfl

@[simp] lemma rx_write_byte (s : PState) (b : Nat) : (write_byte s b).rx = s.rx := rfl

@[simp] lemma rx_wbwfc (s : PState) (b : Nat) :
    (write_byte_with_flow_control s b).rx = s.rx := by
  simp only [write_byte_with_flow_control]
  split_ifs <;> simp [timeout_set, write_byte]

@[simp] lemma rx_delay_ms (s : PState) (ms : Nat) : (delay_ms s ms).rx = s.rx := rfl

@[simp] lemma rx_wait_ready (s : PState) (t : Nat) :
    (wait_for_printer_ready s t).rx = s.rx := by
  unfold wait_for_printer_ready; split_ifs <;> rfl

@[simp] lemma out_timeout_wait (s : PState) : (timeout_wait s).out = s.out := by
  unfold timeout_wait; split_ifs <;> rfl

@[simp] lemma out_timeout_set (s : PState) (d : Nat) : (timeout_set s d).out = s.out := rfl

@[simp] lemma out_delay_ms (s : PState) (ms : Nat) : (delay_ms s ms).out = s.out := rfl

@[simp] lemma out_track (s : PState) (a b c : Nat) :
    (track_print_operation s a b c).out = s.out := rfl

@[simp] lemma out_wait_ready (s : PState) (t : Nat) :
    (wait_for_printer_ready s t).out = s.out := by
  unfold wait_for_printer_ready; split_ifs <;> rfl

@[simp] lemma out_write_byte (s : PState) (b : Nat) :
    (write_byte s b).out = s.out ++ [b % U8] := rfl

@[simp] lemma out_wbwfc (s : PState) (b : Nat) :
    (write_byte_with_flow_control s b).out = s.out ++ [b % U8] := by
  simp only [write_byte_with_flow_control]
  split_ifs <;> simp [timeout_set, write_byte]

@[simp] lemma out_write1 (s : PState) (c : Nat) :
    (write1 s c).out = s.out ++ [c % U8] := by
  simp only [write1, save_usage_to_flash]
  split_ifs <;> simp [timeout_set]

lemma out_foldl_write1 (l : List Nat) (s : PState) :
    (List.foldl write1 s l).out = s.out ++ l.map (· % U8) := by
  induction l generalizing s with
  | nil => simp
  | cons c rest ih => simp [List.foldl_cons, ih (write1 s c)]

@[simp] lemma out_printBytes (l : List Nat) (s : PState) :
    (printBytes s l).out = s.out ++ l.map (· % U8) := out_foldl_write1 l s

@[simp] lemma out_print_text (s : PState) (t : List Nat) :
    (print_text s t).out = s.out ++ t.map (· % U8) := by
  unfold print_text; split_ifs with h <;> simp [h]

@[simp] lemma chars_timeout_wait (s : PState) : (timeout_wait s).chars = s.chars := by
  unfold timeout_wait; split_ifs <;> rfl

@[simp] lemma chars_wbwfc (s : PState) (b : Nat) :
    (write_byte_with_flow_control s b).chars = s.chars := by
  simp only [write_byte_with_flow_control]
  split_ifs <;> simp [timeout_set, write_byte]

@[simp] lemma lines_timeout_wait (s : PState) : (timeout_wait s).lines = s.lines := by
  unfold timeout_wait; split_ifs <;> rfl

@[simp] lemma lines_wbwfc (s : PState) (b : Nat) :
    (write_byte_with_flow_control s b).lines = s.lines := by
  simp only [write_byte_with_flow_control]
  split_ifs <;> simp [timeout_set, write_byte]

@[simp] lemma feeds_timeout_wait (s : PState) : (timeout_wait s).feeds = s.feeds := by
  unfold timeout_wait; split_ifs <;> rfl

@[simp] lemma feeds_wbwfc (s : PState) (b : Nat) :
    (write_byte_with_flow_control s b).feeds = s.feeds := by
  simp only [write_byte_with_flow_control]
  split_ifs <;> simp [timeout_set, write_byte]

@[simp] lemma feeds_write1 (s : PState) (c : Nat) :
    (write1 s c).feeds = s.feeds := by
  simp only [write1, save_usage_to_flash]
  split_ifs <;> simp [timeout_set]

@[simp] lemma dtr_enabled_timeout_wait (s : PState) :
    (timeout_wait s).dtr_enabled = s.dtr_enabled := by
  unfold timeout_wait; split_ifs <;> rfl

@[simp] lemma dtr_enabled_wbwfc (s : PState) (b : Nat) :
    (write_byte_with_flow_control s b).dtr_enabled = s.dtr_enabled := by
  simp only [write_byte_with_flow_control]
  split_ifs <;> simp_all [timeout_set, write_byte]

@[simp] lemma byte_time_timeout_wait (s : PState) :
    (timeout_wait s).byte_time = s.byte_time := by
  unfold timeout_wait; split_ifs <;> rfl

@[simp] lemma chars_write1 (s : PState) (c : Nat) :
    (write1 s c).chars = (s.chars + 1) % U32 := by
  simp only [write1, save_usage_to_flash]
  split_ifs <;> simp [timeout_set]

lemma chars_foldl_write1 (l : List Nat) (s : PState) (h : s.chars < U32) :
    (List.foldl write1 s l).chars = (s.chars + l.length) % U32 := by
  induction l generalizing s with
  | nil => simpa using (Nat.mod_eq_of_lt h).symm
  | cons c rest ih =>
      have h1 : (write1 s c).chars < U32 := by
        rw [chars_write1]; exact Nat.mod_lt _ (by norm_num)
      simp only [List.foldl_cons]
      rw [ih (write1 s c) h1, chars_write1, Nat.mod_add_mod]
      simp only [List.length_cons]
      congr 1
      omega

lemma chars_printBytes (c : Nat) (rest : List Nat) (s : PState) :
    (printBytes s (c :: rest)).chars = (s.chars + (c :: rest).length) % U32 := by
  have h1 : (write1 s c).chars < U32 := by
    rw [chars_write1]; exact Nat.mod_lt _ (by norm_num)
  simp only [printBytes, List.foldl_cons]
  rw [chars_foldl_write1 rest (write1 s c) h1, chars_write1, Nat.mod_add_mod]
  simp only [List.length_cons]
  congr 1
  omega

@[simp] lemma chars_track (s : PState) (a b c : Nat) :
    (track_print_operation s a b c).chars = (s.chars + a % U16) % U32 := rfl

/-- The character counter after `print_text`: each byte is counted once in
`write`, and the (uint16-narrowed) length is added again by the trailing
`track_print_operation`. -/
lemma chars_print_text (s : PState) (t : List Nat) (h : t ≠ []) :
    (print_text s t).chars = (s.chars + t.length + t.length % U16) % U32 := by
  obtain ⟨c, rest, rfl⟩ := List.exists_cons_of_ne_nil h
  unfold print_text
  simp only [if_neg h, chars_track]
  rw [chars_printBytes, Nat.mod_add_mod]

lemma land_twelve_eq_zero_iff (b : Nat) :
    b &&& 12 = 0 ↔ (b.testBit 2 = false ∧ b.testBit 3 = false) := by
  constructor
  · intro h
    refine ⟨?_, ?_⟩
    · have h2 := congrArg (fun n => n.testBit 2) h
      simpa [Nat.testBit_land, show Nat.testBit 12 2 = true from by decide] using h2
    · have h3 := congrArg (fun n => n.testBit 3) h
      simpa [Nat.testBit_land, show Nat.testBit 12 3 = true from by decide] using h3
  · rintro ⟨h2, h3⟩
    apply Nat.eq_of_testBit_eq
    intro i
    rw [Nat.testBit_land, Nat.zero_testBit]
    match i with
    | 0 => simp [show Nat.testBit 12 0 = false from by decide]
    | 1 => simp [show Nat.testBit 12 1 = false from by decide]
    | 2 => simp [h2]
    | 3 => simp [h3]
    | (i + 4) =>
      have h16 : (12 : Nat) < 2 ^ (i + 4) := by
        have hp : (2 : Nat) ^ 4 ≤ 2 ^ (i + 4) :=
          Nat.pow_le_pow_right (by norm_num) (by omega)
        norm_num at hp
        omega
      simp [Nat.testBit_eq_false_of_lt h16]

/-- The value returned by `has_paper` as a function of the receive buffer. -/
lemma has_paper_fst (s : PState) :
    (has_paper s).1 = (match s.rx with
      | [] => true
      | b :: _ => decide ((b % U8) &&& 12 = 0)) := by
  simp only [has_paper]
  cases hrx : s.rx with
  | nil => split_ifs <;> simp_all
  | cons b rest => split_ifs <;> simp_all

lemma out_has_paper (s : PState) : (has_paper s).2.out = s.out ++ [27, 118, 0] := by
  simp only [has_paper]
  split <;> split_ifs <;> simp_all

/-! ### Claim theorems -/

/-- C10: `has_paper()` returns true (paper present) whenever no response
byte is available from the transport after issuing the ESC `v` status
query; it reports paper-out only when a response byte is actually read
and has bit 2 or bit 3 set — so an unresponsive or disconnected printer
is always reported as having paper. -/
theorem C10_has_paper_unresponsive_reports_paper (s : PState) :
    ((has_paper s).2.out = s.out ++ [27, 118, 0]) ∧
    (s.rx = [] → (has_paper s).1 = true) ∧
    (∀ b rest, s.rx = b :: rest → b < U8 →
      ((has_paper s).1 = false ↔ (b.testBit 2 = true ∨ b.testBit 3 = true))) := by
  refine ⟨out_has_paper s, fun h => ?_, fun b rest h hb => ?_⟩
  · rw [has_paper_fst, h]
  · rw [has_paper_fst, h]
    simp only [Nat.mod_eq_of_lt hb]
    rw [decide_eq_false_iff_not, land_twelve_eq_zero_iff]
    cases ht2 : b.testBit 2 <;> cases ht3 : b.testBit 3 <;> simp

/-- Witness for C10 at concrete inputs: an empty receive buffer yields
"paper present"; the status byte 4 (bit 2 set) yields "paper out". -/
theorem C10_witness :
    (has_paper { rx := [] }).1 = true ∧
    ((has_paper { rx := [4] }).1 = false ↔
      ((4 : Nat).testBit 2 = true ∨ (4 : Nat).testBit 3 = true)) :=
  ⟨(C10_has_paper_unresponsive_reports_paper { rx := [] }).2.1 rfl,
   (C10_has_paper_unresponsive_reports_paper { rx := [4] }).2.2 4 [] rfl (by decide)⟩

/-- C4: at setup the per-byte transmission time is derived as
`byte_time_us = 10,000,000 / baud_rate` (19200 when no UART parent is
configured) and the dot print / dot feed times are the fixed constants
33 µs and 333 µs; after every byte sent through the flow-control gate the
resume timestamp is set to `now + 2 * byte_time_us` in software-timed
mode and `now + byte_time_us / 4` in hardware-handshake mode. -/
theorem C4_dtr_timings_and_resume (s : PState) (parentBaud : Option Nat) (b : Nat) :
    ((initialize_dtr_timings s parentBaud).byte_time = 10000000 / parentBaud.getD 19200 ∧
     (initialize_dtr_timings s parentBaud).dot_print_time = 33 ∧
     (initialize_dtr_timings s parentBaud).dot_feed_time = 333) ∧
    (write_byte_with_flow_control s b).resume =
      micros (write_byte_with_flow_control s b) +
        (if s.dtr_enabled then s.byte_time / 4 else s.byte_time * 2) := by
  constructor
  · refine ⟨?_, rfl, rfl⟩
    simp [initialize_dtr_timings]
  · simp only [write_byte_with_flow_control]
    split_ifs <;> simp_all [timeout_set, micros, write_byte]

/-- C6: `can_print_job(estimated_lines)` returns true iff
`estimated_lines * line_height_mm ≤ paper_roll_length - get_paper_usage_mm()`.
The spec's illustrative state (roll 30000 mm, 4.0 mm/line, usage exactly
29990 mm) is not reachable — usage is a multiple of the 4.0 mm line
calibration — so the false/true pair is exhibited at the nearest reachable
state, usage 29992 mm (7498 line units): 10 mm of margin become 8 mm, and
`can_print_job 3` (needs 12 mm) is false while `can_print_job 2` (needs
8 mm) is true. -/
theorem C6_can_print_job_gate :
    (∀ (s : PState) (n : Nat), can_print_job s n = true ↔
      (n : ℚ) * s.line_height_mm ≤ s.paper_roll_length - get_paper_usage_mm s) ∧
    can_print_job { lines := 7498 } 3 = false ∧
    can_print_job { lines := 7498 } 2 = true := by
  refine ⟨fun s n => ?_,
    by simp only [can_print_job, get_paper_usage_mm]; norm_num,
    by simp only [can_print_job, get_paper_usage_mm]; norm_num⟩
  simp [can_print_job]

/-- C2 (amended): with a non-negative mm-per-line calibration the usage
value is always ≥ 0, and one `track_print_operation` call keeps
`get_paper_usage_mm()` non-decreasing provided the cumulative line and
feed counts stay below `2^32` (the counters are `uint32_t` and wrap). -/
theorem C2_usage_monotone_without_wrap (s : PState) (c l f : Nat)
    (hmm : 0 ≤ s.line_height_mm)
    (hnw : s.lines + s.feeds + l % U8 + f % U8 < U32) :
    0 ≤ get_paper_usage_mm s ∧
    get_paper_usage_mm s ≤ get_paper_usage_mm (track_print_operation s c l f) := by
  constructor
  · exact mul_nonneg (Nat.cast_nonneg _) hmm
  · simp only [get_paper_usage_mm, track_print_operation]
    have h1 : s.lines + l % U8 < U32 := by omega
    have h2 : s.feeds + f % U8 < U32 := by omega
    have h3 : s.lines + s.feeds < U32 := by omega
    rw [Nat.mod_eq_of_lt h1, Nat.mod_eq_of_lt h2, Nat.mod_eq_of_lt h3,
        Nat.mod_eq_of_lt (by omega : s.lines + l % U8 + (s.feeds + f % U8) < U32)]
    have hle : ((s.lines + s.feeds : Nat) : ℚ) ≤
        ((s.lines + l % U8 + (s.feeds + f % U8) : Nat) : ℚ) := by
      exact_mod_cast by omega
    exact mul_le_mul_of_nonneg_right hle hmm

/-- Iterating `track_print_operation(0, 255, 0)` accumulates the
wrapped 32-bit line counter. -/
lemma track_iterate_lines (n : Nat) :
    (fun s => track_print_operation s 0 255 0)^[n] ({} : PState) =
      ({ lines := (255 * n) % U32 } : PState) := by
  induction n with
  | zero => rfl
  | succ n ih =>
      rw [Function.iterate_succ_apply', ih]
      simp only [track_print_operation]
      norm_num [Nat.mod_add_mod]
      omega

/-- C2 counterexample: after 16843009 calls of
`track_print_operation(0, 255, 0)` the 32-bit line counter holds
4294967295; one further `track_print_operation(0, 1, 0)` wraps it to 0
and `get_paper_usage_mm()` drops from 17179869180 mm to 0 even though the
calibration (the default 4.0 mm/line) is non-negative — so usage is not
unconditionally monotone over record calls. -/
theorem C2_counterexample :
    0 ≤ ({} : PState).line_height_mm ∧
    get_paper_usage_mm
        (track_print_operation
          ((fun s => track_print_operation s 0 255 0)^[16843009] {}) 0 1 0) <
      get_paper_usage_mm ((fun s => track_print_operation s 0 255 0)^[16843009] {}) := by
  constructor
  · norm_num
  · rw [track_iterate_lines]
    simp only [track_print_operation, get_paper_usage_mm]
    norm_num

/-- Witness for C2 at a concrete input: the fresh state with one
record(5, 1, 1) call. -/
theorem C2_witness :
    0 ≤ get_paper_usage_mm {} ∧
    get_paper_usage_mm {} ≤ get_paper_usage_mm (track_print_operation {} 5 1 1) :=
  C2_usage_monotone_without_wrap {} 5 1 1 (by norm_num) (by norm_num)

/-- C8 (amended): for non-empty newline-free text of length `L < 65536`,
one `print_text` call advances `characters_printed_` by exactly `2 L`
(each byte once in `write`, the length once more in the trailing
`track_print_operation`); for longer texts the trailing addition is the
length narrowed to `uint16_t`, so the advance is `L + (L mod 2^16)`. -/
theorem C8_print_text_double_count (s : PState) (t : List Nat)
    (hne : t ≠ []) (hnl : ∀ c ∈ t, c % U8 ≠ 10) (hlen : t.length < U16) :
    (print_text s t).chars = (s.chars + 2 * t.length) % U32 := by
  rw [chars_print_text s t hne, Nat.mod_eq_of_lt hlen]
  congr 1
  omega

/-- C8 counterexample: for the 65536-character newline-free text of
letter `a`, one `print_text` call leaves the character counter at 65536,
not `2 * 65536`: the trailing `track_print_operation` receives the length
as `uint16_t`, which narrows 65536 to 0. -/
theorem C8_counterexample :
    (print_text {} (List.replicate 65536 97)).chars = 65536 ∧
    (65536 : Nat) ≠ 2 * 65536 := by
  refine ⟨?_, by decide⟩
  rw [chars_print_text]
  · norm_num
  · apply List.ne_nil_of_length_pos
    rw [List.length_replicate]
    norm_num

/-- Witness for C8 at a concrete input: the two-character text `hi`. -/
theorem C8_witness :
    (print_text {} [104, 105]).chars =
      (({} : PState).chars + 2 * ([104, 105] : List Nat).length) % U32 :=
  C8_print_text_double_count {} [104, 105] (by decide) (by decide) (by decide)

@[simp] lemma millis_delay_ms (s : PState) (ms : Nat) :
    millis (delay_ms s ms) = millis s + ms := by
  simp [millis, delay_ms, Nat.add_mul_div_right _ _ (by norm_num : (0:Nat) < 1000)]

/-- With DTR enabled and the ready pin never asserted, the
`wait_for_printer_ready` polling loop exits by the timeout branch:
it runs until the elapsed time first exceeds the timeout, increments the
timeout counter exactly once, and returns. -/
lemma wfprLoop_never_ready (timeout : Nat) :
    ∀ (fuel start : Nat) (s : PState),
    s.dtr_enabled = true → s.dtr_pin_high = true →
    start ≤ millis s → millis s ≤ start + timeout + 1 →
    start + timeout + 1 < millis s + fuel →
    wfprLoop timeout start fuel s =
      some { s with now := s.now + ((start + timeout + 1) - millis s) * 1000,
                    dtr_timeout_count := (s.dtr_timeout_count + 1) % U32 } := by
  intro fuel
  induction fuel with
  | zero => intro start s _ _ _ h4 h5; omega
  | succ fuel ih =>
      intro start s h1 h2 h3 h4 h5
      rw [wfprLoop]
      have hready : dtr_ready s = false := by simp [dtr_ready, h1, h2]
      rw [hready]
      simp only [Bool.false_eq_true, if_false]
      by_cases hb : millis s - start > timeout
      · rw [if_pos hb]
        have hz : (start + timeout + 1) - millis s = 0 := by omega
        rw [hz]
        simp
      · rw [if_neg hb]
        have hd : (delay_ms s 1).dtr_enabled = true := h1
        have hp : (delay_ms s 1).dtr_pin_high = true := h2
        rw [ih start (delay_ms s 1) hd hp (by simp; omega) (by simp; omega)
            (by simp; omega)]
        simp only [Option.some.injEq, delay_ms]
        have harith : s.now + 1 * 1000 + ((start + timeout + 1) - (millis s + 1)) * 1000 =
            s.now + ((start + timeout + 1) - millis s) * 1000 := by
          have h6 : millis s < start + timeout + 1 := by omega
          have h7 : (start + timeout + 1) - millis s =
              ((start + timeout + 1) - (millis s + 1)) + 1 := by omega
          rw [h7]
          ring
        have hms : millis { s with now := s.now + 1 * 1000 } = millis s + 1 := by
          simpa [delay_ms] using millis_delay_ms s 1
        rw [hms, harith]

/-- C5: with DTR handshaking enabled and the ready pin never asserted,
the `wait_for_printer_ready(timeout_ms)` polling loop always returns once
the timeout elapses — fuel `timeout + 2` suffices, so it never loops
forever — agrees with the summarised `wait_for_printer_ready`, and
increments the DTR timeout counter by exactly 1 per call; with
handshaking disabled, `dtr_ready()` returns true immediately. -/
theorem C5_wait_ready_timeout_terminates (s : PState) (t : Nat)
    (h1 : s.dtr_enabled = true) (h2 : s.dtr_pin_high = true) :
    (wfprLoop t (millis s) (t + 2) s = some (wait_for_printer_ready s t) ∧
     (wait_for_printer_ready s t).dtr_timeout_count =
       (s.dtr_timeout_count + 1) % U32) ∧
    (∀ s2 : PState, s2.dtr_enabled = false → dtr_ready s2 = true) := by
  have hlp := wfprLoop_never_ready t (t + 2) (millis s) s h1 h2 le_rfl
    (by omega) (by omega)
  have harr : millis s + t + 1 - millis s = t + 1 := by omega
  refine ⟨⟨?_, ?_⟩, fun s2 h => by simp [dtr_ready, h]⟩
  · rw [hlp, harr]
    simp [wait_for_printer_ready, dtr_ready, h1, h2]
  · simp [wait_for_printer_ready, dtr_ready, h1, h2]

/-- Witness for C5 at a concrete input: a DTR-enabled state with the pin
held high and a 3 ms timeout. -/
theorem C5_witness :
    (wfprLoop 3 (millis { dtr_enabled := true }) (3 + 2) { dtr_enabled := true } =
       some (wait_for_printer_ready { dtr_enabled := true } 3) ∧
     (wait_for_printer_ready { dtr_enabled := true } 3).dtr_timeout_count =
       (({ dtr_enabled := true } : PState).dtr_timeout_count + 1) % U32) ∧
    (∀ s2 : PState, s2.dtr_enabled = false → dtr_ready s2 = true) :=
  C5_wait_ready_timeout_terminates { dtr_enabled := true } 3 rfl rfl

/-- C1: enqueueing never silently grows the queue beyond the configured
capacity.  Evict-oldest variant (`queue_print_job`, part_004): capacity
(≥ 1) is preserved; at capacity exactly the oldest job is removed before
the new one is appended and `jobs_dropped_` is incremented by 1; below
capacity the job is appended with no drop.  Reject-new variant
(`add_job_to_queue`, part_003): at capacity the call returns false
leaving the queue unchanged and increments `jobs_dropped_` by 1 — and the
`queue_text_job` producer reports this as `QUEUE_FULL`; capacity is
preserved unconditionally. -/
theorem C1_queue_capacity_invariant :
    (∀ (s : PState) (j : PrintJob), 1 ≤ s.max_queue_size →
        s.queue.length ≤ s.max_queue_size →
        (queue_print_job s j).2.queue.length ≤ s.max_queue_size) ∧
    (∀ (s : PState) (j : PrintJob), s.max_queue_size ≤ s.queue.length →
        (queue_print_job s j).1 = PrintResult.SUCCESS ∧
        (queue_print_job s j).2.queue =
          s.queue.tail ++ [{ j with timestamp := millis s }] ∧
        (queue_print_job s j).2.jobs_dropped = (s.jobs_dropped + 1) % U32) ∧
    (∀ (s : PState) (j : PrintJob), s.queue.length < s.max_queue_size →
        (queue_print_job s j).2.queue = s.queue ++ [{ j with timestamp := millis s }] ∧
        (queue_print_job s j).2.jobs_dropped = s.jobs_dropped) ∧
    (∀ (s : Q3State) (j : PrintJob3), s.max_queue_size ≤ s.queue.length →
        add_job_to_queue s j =
          (false, { s with jobs_dropped := (s.jobs_dropped + 1) % U32 })) ∧
    (∀ (s : Q3State) (j : PrintJob3), s.queue.length ≤ s.max_queue_size →
        (add_job_to_queue s j).2.queue.length ≤ s.max_queue_size) ∧
    (∀ (s : Q3State) (text : String) (sz al : Nat) (b u v : Bool),
        s.max_queue_size ≤ s.queue.length → text.length ≠ 0 →
        (queue_text_job s text sz al b u v).1 = PrintResult.QUEUE_FULL ∧
        (queue_text_job s text sz al b u v).2.queue = s.queue) := by
  refine ⟨?_, ?_, ?_, ?_, ?_, ?_⟩
  · intro s j h1 h2
    simp only [queue_print_job]
    split_ifs with h
    · simp only [List.length_append, List.length_tail, List.length_cons,
        List.length_nil]
      omega
    · simp only [List.length_append, List.length_cons, List.length_nil]
      omega
  · intro s j h
    refine ⟨rfl, ?_, ?_⟩ <;> simp [queue_print_job, if_pos h, millis]
  · intro s j h
    have h2 : ¬ s.max_queue_size ≤ s.queue.length := by omega
    refine ⟨?_, ?_⟩ <;> simp [queue_print_job, if_neg h2, millis]
  · intro s j h
    simp [add_job_to_queue, is_queue_full, h]
  · intro s j h
    simp only [add_job_to_queue, is_queue_full]
    split_ifs with hf
    · simpa using h
    · simp only [decide_eq_true_eq, not_le] at hf
      simp only [List.length_append, List.length_cons, List.length_nil]
      omega
  · intro s text sz al b u v hfull hne
    simp only [queue_text_job, if_neg hne, add_job_to_queue, is_queue_full,
      decide_eq_true_eq, if_pos hfull]
    exact ⟨rfl, rfl⟩

/-- Witness for C1 at concrete inputs: a queue of one default job with
capacity 1 (evict-oldest variant) and the analogous full part_003 queue
with a non-empty text job (reject-new variant). -/
theorem C1_witness :
    ((queue_print_job { queue := [{}], max_queue_size := 1 } {}).2.queue.length ≤
      ({ queue := [{}], max_queue_size := 1 } : PState).max_queue_size) ∧
    ((queue_print_job { queue := [{}], max_queue_size := 1 } {}).1 =
      PrintResult.SUCCESS) ∧
    (add_job_to_queue { queue := [{}], max_queue_size := 1 } {} =
      (false, { ({ queue := [{}], max_queue_size := 1 } : Q3State) with
                  jobs_dropped := (({ queue := [{}], max_queue_size := 1 } :
                    Q3State).jobs_dropped + 1) % U32 })) ∧
    ((queue_text_job { queue := [{}], max_queue_size := 1 } "hi" 1 0
        false false false).1 = PrintResult.QUEUE_FULL) := by
  refine ⟨?_, ?_, ?_, ?_⟩
  · exact C1_queue_capacity_invariant.1 { queue := [{}], max_queue_size := 1 } {}
      (by decide) (by decide)
  · exact (C1_queue_capacity_invariant.2.1 { queue := [{}], max_queue_size := 1 } {}
      (by decide)).1
  · exact C1_queue_capacity_invariant.2.2.2.1
      { queue := [{}], max_queue_size := 1 } {} (by decide)
  · exact (C1_queue_capacity_invariant.2.2.2.2.2
      { queue := [{}], max_queue_size := 1 } "hi" 1 0 false false false
      (by decide) (by decide)).1

@[simp] lemma out_set_size (s : PState) (v : Char) :
    (set_size s v).out =
      s.out ++ [27, 33, if v = 'L' then 48 else if v = 'M' then 16 else 0] := by
  simp only [set_size]
  split_ifs <;> simp

@[simp] lemma out_set_text_size (s : PState) (n : Nat) :
    (set_text_size s n).out =
      s.out ++ [27, 33, if n = 2 then 16 else if n = 1 then 0 else if 3 ≤ n then 48 else 0] := by
  simp only [set_text_size]
  split_ifs <;> simp_all

@[simp] lemma out_justify (s : PState) (v : Char) :
    (justify s v).out =
      s.out ++ [27, 97, if v = 'L' then 0 else if v = 'C' then 1
                        else if v = 'R' then 2 else 0] := by
  simp only [justify]
  split_ifs <;> simp

@[simp] lemma out_bold_on (s : PState) (b : Bool) :
    (bold_on s b).out = s.out ++ [27, 69, if b then 1 else 0] := by
  simp only [bold_on]
  split_ifs <;> simp

@[simp] lemma out_bold_off (s : PState) :
    (bold_off s).out = s.out ++ [27, 69, 0] := by
  simp [bold_off]

@[simp] lemma out_set_rotation (s : PState) (r : Nat) :
    (set_rotation s r).out = s.out ++ [27, 86, r % 4] := by
  have h4 : r % 4 % U8 = r % 4 :=
    Nat.mod_eq_of_lt (lt_of_lt_of_le (Nat.mod_lt r (by norm_num)) (by decide))
  simp only [set_rotation]
  split_ifs <;> simp [h4]

@[simp] lemma out_feed (s : PState) (x : Nat) :
    (feed s x).out = s.out ++ [27, 100, x % U8] := by
  simp only [feed]
  split_ifs <;> simp

/-- C3: `print_immediate` fails fast with `PRINTER_OFFLINE` when the
printer is busy, else with `PAPER_OUT` when the paper check fails, else
prints the text synchronously (its bytes appear contiguously in the
transmitted stream) and returns `SUCCESS`; in every case the print queue
is left exactly as it was. -/
theorem C3_print_immediate_bypasses_queue (s : PState) (t : List Nat)
    (size align : Nat) (bold : Bool) :
    ((print_immediate s t size align bold).2.queue = s.queue) ∧
    (s.printer_busy = true →
      print_immediate s t size align bold = (PrintResult.PRINTER_OFFLINE, s)) ∧
    (s.printer_busy = false → (has_paper s).1 = false →
      (print_immediate s t size align bold).1 = PrintResult.PAPER_OUT) ∧
    (s.printer_busy = false → (has_paper s).1 = true →
      (print_immediate s t size align bold).1 = PrintResult.SUCCESS ∧
      ∃ pre post, (print_immediate s t size align bold).2.out =
        s.out ++ pre ++ t.map (· % U8) ++ post) := by
  refine ⟨?_, fun h => ?_, fun h1 h2 => ?_, fun h1 h2 => ⟨?_, ?_⟩⟩
  · simp only [print_immediate]
    split_ifs <;> simp
  · simp [print_immediate, h]
  · simp [print_immediate, h1, h2]
  · simp [print_immediate, h1, h2]
  · refine ⟨[27, 118, 0] ++
      [27, 33, if size = 2 then 16 else if size = 1 then 0 else if 3 ≤ size then 48 else 0] ++
      [27, 97, if (if align = 0 then 'L' else if align = 1 then 'C' else 'R') = 'L' then 0
               else if (if align = 0 then 'L' else if align = 1 then 'C' else 'R') = 'C' then 1
               else if (if align = 0 then 'L' else if align = 1 then 'C' else 'R') = 'R' then 2
               else 0] ++
      [27, 69, if bold then 1 else 0],
      [27, 69, 0] ++ [27, 97, 0], ?_⟩
    simp [print_immediate, h1, h2, out_has_paper]

/-- Witness for C3 at concrete inputs: a busy printer, a printer whose
status byte reports paper-out (0x0C), and an unresponsive printer. -/
theorem C3_witness :
    (print_immediate { printer_busy := true } [72] 1 0 false =
      (PrintResult.PRINTER_OFFLINE, { printer_busy := true })) ∧
    ((print_immediate { rx := [12] } [72] 1 0 false).1 = PrintResult.PAPER_OUT) ∧
    ((print_immediate {} [72] 1 0 false).1 = PrintResult.SUCCESS) ∧
    ((print_immediate {} [72] 1 0 false).2.queue = ({} : PState).queue) :=
  ⟨(C3_print_immediate_bypasses_queue { printer_busy := true } [72] 1 0 false).2.1 rfl,
   (C3_print_immediate_bypasses_queue { rx := [12] } [72] 1 0 false).2.2.1 rfl
     (by rw [has_paper_fst]; decide),
   ((C3_print_immediate_bypasses_queue {} [72] 1 0 false).2.2.2 rfl
     (by rw [has_paper_fst])).1,
   (C3_print_immediate_bypasses_queue {} [72] 1 0 false).1⟩

lemma out_print_padded_line (s : PState) (l r : List Nat) (W p : Nat) :
    (print_padded_line s l r W p).out =
      s.out ++ l.map (· % U8) ++
        List.replicate (padCount W l.length r.length) (p % U8) ++
        r.map (· % U8) ++ [10] := by
  simp only [print_padded_line, out_track, out_printBytes, out_foldl_write1,
    List.map_replicate]
  simp

/-- In the claimed regime (`left_len + right_len ≤ W < 256`) the byte
arithmetic is exact and the pad count is `max (W - l - r) 1`. -/
lemma padCount_no_overflow (W ll rl : Nat) (hW : W < U8) (hlr : ll + rl ≤ W) :
    padCount W ll rl = max (W - ll - rl) 1 := by
  have hll : ll % U8 = ll := Nat.mod_eq_of_lt (by omega)
  have hrl : rl % U8 = rl := Nat.mod_eq_of_lt (by omega)
  simp only [padCount, hll, hrl]
  have hcast : (W : Int) - ll - rl = ((W - ll - rl : Nat) : Int) := by
    omega
  rw [hcast]
  have hnn : (0 : Int) ≤ ((W - ll - rl : Nat) : Int) := Int.ofNat_nonneg _
  have hsm : ((W - ll - rl : Nat) : Int) < (U8 : Int) := by
    have : W - ll - rl < U8 := by omega
    exact_mod_cast this
  have he : ((W - ll - rl : Nat) : Int).emod (U8 : Int) = ((W - ll - rl : Nat) : Int) :=
    Int.emod_eq_of_lt hnn hsm
  rw [he, Int.toNat_natCast]
  split_ifs with h
  · omega
  · omega

/-- C7 counterexample: `print_padded_line` with total width 32, a
20-character left text and a 13-character right text emits 255 pad
characters — the `uint8_t` padding local wraps `32 − 20 − 13 = −1` to 255
— not the `max(W − len(left) − len(right), 1) = 1` the claim states. -/
theorem C7_counterexample :
    (print_padded_line {} (List.replicate 20 65) (List.replicate 13 66) 32 46).out =
      List.replicate 20 65 ++ List.replicate 255 46 ++ List.replicate 13 66 ++ [10] ∧
    (255 : Int) ≠ max ((32 : Int) - 20 - 13) 1 := by
  refine ⟨?_, by decide⟩
  rw [out_print_padded_line]
  norm_num [padCount]
  all_goals decide

/-- C7 (amended): `print_two_column("Coffee", "$3.50", fill_dots)` at
Small size emits `ESC ! 0`, then a line of exactly 32 visible characters
(`"Coffee"`, 21 dots, `"$3.50"`) and a newline, then `ESC ! 0` again; in
general `print_padded_line(left, right, W, pad)` emits
`max(W − len(left) − len(right), 1)` pad characters whenever
`len(left) + len(right) ≤ W < 256` — outside that regime the `uint8_t`
padding arithmetic wraps to `(W − len(left) − len(right)) mod 256`
(floored at 1). -/
theorem C7_two_column_line_width :
    (∀ s : PState,
      (print_two_column s [67, 111, 102, 102, 101, 101] [36, 51, 46, 53, 48]
          true 'S').out =
        s.out ++ [27, 33, 0] ++
          ([67, 111, 102, 102, 101, 101] ++ List.replicate 21 46 ++
            [36, 51, 46, 53, 48] ++ [10]) ++ [27, 33, 0] ∧
      (([67, 111, 102, 102, 101, 101] ++ List.replicate 21 46 ++
        [36, 51, 46, 53, 48] : List Nat)).length = 32) ∧
    (∀ (s : PState) (left right : List Nat) (W p : Nat), W < U8 →
      left.length + right.length ≤ W →
      (print_padded_line s left right W p).out =
        s.out ++ left.map (· % U8) ++
          List.replicate (max (W - left.length - right.length) 1) (p % U8) ++
          right.map (· % U8) ++ [10]) := by
  constructor
  · intro s
    constructor
    · simp only [print_two_column]
      norm_num [out_print_padded_line, padCount]
      all_goals decide
    · decide
  · intro s left right W p hW hlr
    rw [out_print_padded_line, padCount_no_overflow W left.length right.length hW hlr]

/-- Witness for C7 at a concrete input: a 5-wide padded line around
one-character columns. -/
theorem C7_witness :
    (print_padded_line {} [65] [66] 5 46).out =
      ({} : PState).out ++ ([65] : List Nat).map (· % U8) ++
        List.replicate (max (5 - ([65] : List Nat).length - ([66] : List Nat).length) 1)
          (46 % U8) ++
        ([66] : List Nat).map (· % U8) ++ [10] :=
  C7_two_column_line_width.2 {} [65] [66] 5 46 (by decide) (by decide)

/-- The rotated-text character loop ignores linefeed characters: the
state after the loop only depends on the non-newline characters. -/
lemma rotatedBody_skips_newlines (l : List Nat) :
    ∀ s : PState, rotatedBody s l = rotatedBody s (l.filter (fun c => c % U8 != 10)) := by
  induction l with
  | nil => intro s; rfl
  | cons c rest ih =>
      intro s
      by_cases h32 : c % U8 = 32
      · have hkeep : (c % U8 != 10) = true := by rw [h32]; decide
        simp only [List.filter_cons, hkeep, if_pos]
        rw [rotatedBody, rotatedBody, if_pos h32, if_pos h32]
        exact ih _
      · by_cases h10 : c % U8 = 10
        · have hdrop : (c % U8 != 10) = false := by rw [h10]; decide
          simp only [List.filter_cons, hdrop, Bool.false_eq_true, if_false]
          rw [rotatedBody, if_neg h32, if_neg (by simp [h10])]
          exact ih s
        · have hkeep : (c % U8 != 10) = true := by simp [h10]
          simp only [List.filter_cons, hkeep, if_pos]
          rw [rotatedBody, rotatedBody, if_neg h32, if_neg h32,
              if_pos h10, if_pos h10]
          exact ih _

/-- Every iteration of the rotated-text loop only appends to the
transmitted stream. -/
lemma rotatedBody_out_extend (l : List Nat) :
    ∀ s : PState, ∃ e, (rotatedBody s l).out = s.out ++ e := by
  induction l with
  | nil => intro s; exact ⟨[], by simp [rotatedBody]⟩
  | cons c rest ih =>
      intro s
      rw [rotatedBody]
      split_ifs with h32 h10
      · obtain ⟨e, he⟩ := ih (feed (print_text s [194, 183]) 1)
        refine ⟨[194 % U8, 183 % U8] ++ [27, 100, 1 % U8] ++ e, ?_⟩
        rw [he]
        simp [print_text]
      · obtain ⟨e, he⟩ := ih
          (if (feed (print_text s [c]) 2).dtr_enabled then
            wait_for_printer_ready (feed (print_text s [c]) 2) 2000
          else delay_ms (feed (print_text s [c]) 2) 100)
        refine ⟨[c % U8] ++ [27, 100, 2 % U8] ++ e, ?_⟩
        rw [he]
        split_ifs <;> simp [print_text]
      · exact ih s

/-- C9: `print_rotated_text(text, rotation)` ignores its rotation
argument, emits at most the first 20 characters of the text (later
characters never influence the state), skips newline characters within
that prefix, and brackets the body between hardware rotation commands
`ESC V 1` and `ESC V 0`. -/
theorem C9_print_rotated_text_truncates (s : PState) (t : List Nat) (r r2 : Nat) :
    (print_rotated_text s t r = print_rotated_text s t r2) ∧
    (print_rotated_text s t r = print_rotated_text s (t.take 20) r) ∧
    (rotatedBody s t = rotatedBody s (t.filter (fun c => c % U8 != 10))) ∧
    (t ≠ [] → ∃ a b c, (print_rotated_text s t r).out =
      s.out ++ a ++ [27, 86, 1] ++ b ++ [27, 86, 0] ++ c) := by
  refine ⟨rfl, ?_, rotatedBody_skips_newlines t s, fun hne => ?_⟩
  · by_cases h : t = []
    · subst h; rfl
    · have h2 : t.take 20 ≠ [] := by
        intro hc
        rcases List.take_eq_nil_iff.mp hc with h20 | hnil
        · exact absurd h20 (by norm_num)
        · exact h hnil
      simp only [print_rotated_text, if_neg h, if_neg h2, List.take_take]
      norm_num
  · simp only [print_rotated_text, if_neg hne]
    obtain ⟨e, he⟩ := rotatedBody_out_extend (t.take 20)
      (set_rotation (justify (set_text_size s 1) 'C') 1)
    refine ⟨[27, 33, 0] ++ [27, 97, 1], e,
      [27, 97, 0] ++ [27, 33, 16] ++ [27, 100, 3 % U8], ?_⟩
    rw [out_feed, out_set_text_size, out_justify, out_set_rotation, he]
    rw [out_set_rotation, out_justify, out_set_text_size]
    simp

/-- Witness for C9 at a concrete input: the single-character text `A`. -/
theorem C9_witness :
    ∃ a b c, (print_rotated_text {} [65] 3).out =
      ({} : PState).out ++ a ++ [27, 86, 1] ++ b ++ [27, 86, 0] ++ c :=
  (C9_print_rotated_text_truncates {} [65] 3 0).2.2.2 (by decide)

end ThermalPrinter
